import Mathlib

/-!
Verification development for the txt2docx capture-parsing script
(`txt2docx-v0.0.4.py`): the vendor extractors `parse_cisco`,
`parse_huawei`, `parse_h3c`, the dispatcher `parse_device_info` and the
file-ordering helper `sort_by_ip` are embedded shallowly.

Modelling conventions:
* Python `re` patterns are embedded via a small backtracking matcher
  (`RE` / `reM`) that reproduces leftmost search, greedy/lazy repetition
  priority, multiline anchors and character classes for the exact
  patterns occurring in the source.  Inputs are taken to be ASCII text,
  so in character classes the ASCII case functions coincide with
  Python's.
* Python dicts are association lists.  A device record maps keys to
  `Val` (string, `None`, bool, or a member list); a member dict maps
  keys to `Option String` where `Option.none` is Python `None`.
  A key absent from the association list models a key absent from the
  dict, which is distinct from a key bound to `None`.
* The matcher carries fuel bounding its recursion depth; the fuel
  `16 * length + 64` exceeds the depth any of the embedded patterns can
  consume on its input, so no genuine match is lost.
-/

set_option maxRecDepth 100000

namespace TxtDocx

/-! ## Character classes and small string utilities (Python semantics) -/

/-- Python `\s` on ASCII text: space, tab, newline, carriage return,
vertical tab, form feed. -/
def isSpaceC (c : Char) : Bool :=
  c = ' ' || c = '\t' || c = '\n' || c = '\r' || c = '\x0b' || c = '\x0c'

/-- Python `\d` on ASCII text. -/
def isDigitC (c : Char) : Bool := '0' ≤ c && c ≤ '9'

/-- Python `\w` on ASCII text: letters, digits, underscore. -/
def isWordC (c : Char) : Bool :=
  isDigitC c || ('a' ≤ c && c ≤ 'z') || ('A' ≤ c && c ≤ 'Z') || c = '_'

/-- ASCII lower-casing of one character, as Python `str.lower` does on
ASCII input (and as `re.I` folds case). -/
def lowerC (c : Char) : Char :=
  if 'A' ≤ c && c ≤ 'Z' then Char.ofNat (c.toNat + 32) else c

/-- Python `str.lower()` on ASCII text. -/
def pyLower (s : String) : String := String.mk (s.data.map lowerC)

/-- Python `str.strip()`: drop leading and trailing whitespace. -/
def pyStrip (s : String) : String :=
  String.mk (((s.data.dropWhile isSpaceC).reverse.dropWhile isSpaceC).reverse)

/-- `needle` occurs at the head of `hay`. -/
def headSub : List Char → List Char → Bool
  | [], _ => true
  | _ :: _, [] => false
  | a :: as, b :: bs => a = b && headSub as bs

/-- `needle` occurs somewhere in `hay` (Python `in` on strings). -/
def hasSub (needle : List Char) : List Char → Bool
  | [] => headSub needle []
  | c :: cs => headSub needle (c :: cs) || hasSub needle cs

/-- Python `needle in content.lower()` for a lowercase ASCII literal. -/
def pyContains (content needle : String) : Bool :=
  hasSub needle.data (pyLower content).data

/-- Python `int()` on a decimal digit string. -/
def natDigits (s : String) : Nat :=
  s.data.foldl (fun a c => 10 * a + (c.toNat - 48)) 0

/-- Python `s.split(x)[0]` for a one-character separator: the text before
the first occurrence of the separator. -/
def beforeFirst (s : String) (sep : Char) : String :=
  String.mk (s.data.takeWhile (fun c => c ≠ sep))

/-- Python `s.replace(a, b)` for a one-character pattern `a` (the only
shape the source uses): every occurrence replaced. -/
def pyReplaceC (s : String) (a : Char) (b : String) : String :=
  String.mk (s.data.foldr (fun c acc => if c = a then b.data ++ acc else c :: acc) [])

/-- Python `s.split(".")`: split at every dot, keeping empty pieces. -/
def splitDotAux : List Char → List Char → List String
  | [], acc => [String.mk acc.reverse]
  | c :: cs, acc =>
    if c = '.' then String.mk acc.reverse :: splitDotAux cs []
    else splitDotAux cs (c :: acc)

/-- Dotted split of a string. -/
def splitDot (s : String) : List String := splitDotAux s.data []

/-! ## A tiny backtracking regex matcher

`RE` covers exactly the constructs used by the source's patterns:
single-character classes, concatenation, alternation (preferring the
left branch), greedy and lazy Kleene star, capture groups, the
multiline anchors `^` and `$`, and the non-multiline `$`.  `reM` is a
continuation-passing backtracking matcher; its priority order (left
alternative first, greedy star prefers more iterations, lazy star
prefers fewer) is Python's. -/

inductive RE where
  | eps
  | cls (f : Char → Bool)
  | seq (a b : RE)
  | alt (a b : RE)
  | star (a : RE)
  | starL (a : RE)
  | group (n : Nat) (a : RE)
  | bol
  | eolM
  | eos

/-- Captured group spans: (group index, start, end), latest capture first. -/
abbrev Groups := List (Nat × Nat × Nat)

/-- Continuation-passing backtracking matcher.  State: remaining input,
previous character (`'\n'` at position 0, so `bol` holds there), current
position, captured groups.  Fuel bounds recursion depth only. -/
def reM : Nat → RE → List Char → Char → Nat → Groups →
    (List Char → Char → Nat → Groups → Option Groups) → Option Groups
  | 0, _, _, _, _, _, _ => Option.none
  | n + 1, re, rem, prev, pos, g, k =>
    match re with
    | .eps => k rem prev pos g
    | .cls f =>
      match rem with
      | [] => Option.none
      | c :: rest => if f c then k rest c (pos + 1) g else Option.none
    | .seq a b =>
      reM n a rem prev pos g (fun r2 p2 i2 g2 => reM n b r2 p2 i2 g2 k)
    | .alt a b =>
      match reM n a rem prev pos g k with
      | some r => some r
      | none => reM n b rem prev pos g k
    | .star a =>
      match reM n a rem prev pos g
          (fun r2 p2 i2 g2 =>
            if pos < i2 then reM n (.star a) r2 p2 i2 g2 k else Option.none) with
      | some r => some r
      | none => k rem prev pos g
    | .starL a =>
      match k rem prev pos g with
      | some r => some r
      | none =>
        reM n a rem prev pos g
          (fun r2 p2 i2 g2 =>
            if pos < i2 then reM n (.starL a) r2 p2 i2 g2 k else Option.none)
    | .group m a =>
      reM n a rem prev pos g (fun r2 p2 i2 g2 => k r2 p2 i2 ((m, pos, i2) :: g2))
    | .bol => if prev = '\n' then k rem prev pos g else Option.none
    | .eolM =>
      match rem with
      | [] => k rem prev pos g
      | c :: _ => if c = '\n' then k rem prev pos g else Option.none
    | .eos =>
      match rem with
      | [] => k rem prev pos g
      | [c] => if c = '\n' then k rem prev pos g else Option.none
      | _ :: _ :: _ => Option.none

/-- Depth budget: ample for every pattern in the source on its input. -/
def fuelFor (cs : List Char) : Nat := 16 * cs.length + 64

/-- Try to match `re` anchored at the current state (Python `re.match`
at this position); on success the whole-match span is recorded as
group 0. -/
def reMatchHere (fu : Nat) (re : RE) (rem : List Char) (prev : Char)
    (pos : Nat) : Option Groups :=
  reM fu re rem prev pos [] (fun _ _ e g => some ((0, pos, e) :: g))

/-- Python `re.search` scanning: try each start position left to right. -/
def reSearchFrom (fu : Nat) (re : RE) : List Char → Char → Nat → Option Groups
  | rem, prev, pos =>
    match reMatchHere fu re rem prev pos with
    | some g => some g
    | none =>
      match rem with
      | [] => Option.none
      | c :: rest => reSearchFrom fu re rest c (pos + 1)

/-- Python `re.search(pattern, content)`. -/
def reSearch (cs : List Char) (re : RE) : Option Groups :=
  reSearchFrom (fuelFor cs) re cs '\n' 0

/-- Start of captured group `n` (most recent capture wins, as in Python). -/
def grpStart (g : Groups) (n : Nat) : Nat :=
  match g.find? (fun t => t.1 = n) with
  | some t => t.2.1
  | none => 0

/-- End of captured group `n`. -/
def grpEnd (g : Groups) (n : Nat) : Nat :=
  match g.find? (fun t => t.1 = n) with
  | some t => t.2.2
  | none => 0

/-- Python `m.group(n)`: the captured slice of the subject. -/
def grpS (cs : List Char) (g : Groups) (n : Nat) : String :=
  String.mk ((cs.drop (grpStart g n)).take (grpEnd g n - grpStart g n))

/-- The character before position `pos` (`'\n'` at position 0). -/
def prevAt (cs : List Char) (pos : Nat) : Char :=
  if pos = 0 then '\n'
  else
    match cs.get? (pos - 1) with
    | some c => c
    | none => '\n'

/-- Python `re.finditer`: non-overlapping matches, each search resuming
at the end of the previous match (one past it for an empty match). -/
def reFindIterAux (fu : Nat) (re : RE) (cs : List Char) :
    Nat → Nat → List Groups
  | 0, _ => []
  | steps + 1, pos =>
    match reSearchFrom fu re (cs.drop pos) (prevAt cs pos) pos with
    | none => []
    | some g =>
      let e := grpEnd g 0
      let nxt := if grpStart g 0 < e then e else e + 1
      g :: reFindIterAux fu re cs steps nxt

/-- Python `re.finditer(pattern, content)` as a list of matches. -/
def reFindIter (cs : List Char) (re : RE) : List Groups :=
  reFindIterAux (fuelFor cs) re cs (cs.length + 2) 0

/-! ## Pattern combinators for the source's regexes -/

/-- Concatenation of a pattern list. -/
def cat (l : List RE) : RE := l.foldr RE.seq RE.eps

/-- A case-insensitive literal (Python literal text under `re.I`). -/
def litCI (s : String) : RE :=
  cat (s.data.map (fun c => RE.cls (fun x => lowerC x = lowerC c)))

/-- A case-sensitive literal. -/
def lit (s : String) : RE :=
  cat (s.data.map (fun c => RE.cls (fun x => x = c)))

/-- `\s` -/
def clsS : RE := .cls isSpaceC

/-- `\S` -/
def clsNS : RE := .cls (fun c => !isSpaceC c)

/-- `.` (no DOTALL anywhere in the source) -/
def clsDot : RE := .cls (fun c => c ≠ '\n')

/-- `\d` -/
def clsD : RE := .cls isDigitC

/-- `\w` -/
def clsW : RE := .cls isWordC

/-- `x+` greedy -/
def plus (a : RE) : RE := .seq a (.star a)

/-- `x+?` lazy -/
def plusL (a : RE) : RE := .seq a (.starL a)

/-- `x?` greedy -/
def opt (a : RE) : RE := .alt a .eps

/-! ## Python dicts

A member dict maps string keys to `Option String` (`Option.none` is
Python `None`).  A device dict maps string keys to `Val`.  Lookup of an
absent key is modelled by the outer `Option` of `mget` / `rget`. -/

/-- One stack/cluster member, as the source builds it: a dict whose
values are strings or `None`. -/
abbrev Member := List (String × Option String)

/-- A value stored in a device record. -/
inductive Val where
  | s (x : String)
  | nul
  | b (x : Bool)
  | ms (xs : List Member)
deriving DecidableEq, Repr

/-- A device record: a Python dict keyed by strings. -/
abbrev Rec := List (String × Val)

/-- Dict lookup (`d[k]` / `k in d`): `Option.none` when the key is absent. -/
def mget : Member → String → Option (Option String)
  | [], _ => Option.none
  | (k, v) :: r, q => if k = q then some v else mget r q

/-- Dict store `d[k] = v`: replace in place, else append (insertion order). -/
def mset : Member → String → Option String → Member
  | [], q, v => [(q, v)]
  | (k, w) :: r, q, v => if k = q then (k, v) :: r else (k, w) :: mset r q v

/-- Device-record lookup. -/
def rget : Rec → String → Option Val
  | [], _ => Option.none
  | (k, v) :: r, q => if k = q then some v else rget r q

/-- Device-record store. -/
def rset : Rec → String → Val → Rec
  | [], q, v => [(q, v)]
  | (k, w) :: r, q, v => if k = q then (k, v) :: r else (k, w) :: rset r q v

/-- Python `member.get(k)`: `None` both for an absent key and for a key
bound to `None`. -/
def mgetPy (m : Member) (k : String) : Option String := (mget m k).join

/-- Python `member.get(k, d)` where the bound value, if any, is a string
(as holds at every use site in the source). -/
def mgetD (m : Member) (k d : String) : String :=
  match mget m k with
  | some (some s) => s
  | some Option.none => d
  | Option.none => d

/-- Python `data.get(k)` at call sites where the key, when present,
holds a string. -/
def rgetS (r : Rec) (k : String) : Option String :=
  match rget r k with
  | some (.s x) => some x
  | _ => Option.none

/-- Lift a Python value (string or `None`) into a record value. -/
def pyVal : Option String → Val
  | some s => .s s
  | Option.none => .nul

/-- Python `dict.update`: store every pair of `src` into `dst` in order. -/
def rUpdate (dst src : Rec) : Rec := src.foldl (fun r p => rset r p.1 p.2) dst

/-- Lookup in a dict built by a comprehension over a match list (later
duplicate keys overwrite earlier ones), without a default: Python
`d.get(k)`. -/
def dictGet? (l : List (String × String)) (k : String) : Option String :=
  match l.reverse.find? (fun p => p.1 = k) with
  | some p => some p.2
  | Option.none => Option.none

/-- Same, with a default: Python `d.get(k, d)`. -/
def dictGetD (l : List (String × String)) (k d : String) : String :=
  match dictGet? l k with
  | some v => v
  | Option.none => d

theorem rget_rset_same (r : Rec) (k : String) (v : Val) :
    rget (rset r k v) k = some v := by
  induction r with
  | nil => simp [rget, rset]
  | cons p t ih =>
    by_cases h : p.1 = k <;> simp [rget, rset, h, ih]

theorem rget_rset_ne (r : Rec) (k q : String) (v : Val) (h : q ≠ k) :
    rget (rset r k v) q = rget r q := by
  have hkq : (k = q) = False := by
    simp only [eq_iff_iff, iff_false]
    exact fun he => h he.symm
  induction r with
  | nil => simp [rget, rset, hkq]
  | cons p t ih =>
    by_cases hp : p.1 = k
    · simp [rget, rset, hp, hkq]
    · simp [rget, rset, hp, ih]

/-! ## The source's regular expressions

Each definition transliterates one pattern of `txt2docx-v0.0.4.py`,
with the flags it is compiled with noted. -/

/-- Cisco `r"(\S+?)#"` (`re.I`). -/
def pcPrompt : RE := .seq (.group 1 (plusL clsNS)) (.cls (fun c => c = '#'))

/-- Cisco `r"^\s*hostname\s+(.+?)\s*$"` (`re.I | re.M`). -/
def pcHostname : RE :=
  cat [.bol, .star clsS, litCI "hostname", plus clsS,
       .group 1 (plusL clsDot), .star clsS, .eolM]

/-- `r"uptime is (.+)"` (`re.I`; shared by all three vendors). -/
def pUptime : RE := .seq (litCI "uptime is ") (.group 1 (plus clsDot))

/-- Cisco `r"Clock is (.+)"` (`re.I`). -/
def pcClock : RE := .seq (litCI "Clock is ") (.group 1 (plus clsDot))

/-- Cisco `r"CPU utilization for five seconds: (\S+)"` (`re.I`). -/
def pcCpu : RE :=
  .seq (litCI "CPU utilization for five seconds: ") (.group 1 (plus clsNS))

/-- Cisco `r"Processor Pool Total:\s+(\d+)"` (`re.I`). -/
def pcTotal : RE := cat [litCI "Processor Pool Total:", plus clsS, .group 1 (plus clsD)]

/-- Cisco `r"Used:\s+(\d+)"` (`re.I`). -/
def pcUsed : RE := cat [litCI "Used:", plus clsS, .group 1 (plus clsD)]

/-- `[\w-]` -/
def clsWD : RE := .cls (fun c => isWordC c || c = '-')

/-- `[0-9a-f:.]` under `re.I`. -/
def clsMac : RE :=
  .cls (fun c => isDigitC c || ('a' ≤ lowerC c && lowerC c ≤ 'f') || c = ':' || c = '.')

/-- `[0-9A-Z]` under `re.I`. -/
def clsAlnum : RE :=
  .cls (fun c => isDigitC c || ('a' ≤ lowerC c && lowerC c ≤ 'z'))

/-- Cisco member row
`r"^\s*([*\d])\s+\S+\s+([\w-]+)\s+([0-9a-f:.]+)\s+(\w+)"` (`re.M | re.I`). -/
def pcRow : RE :=
  cat [.bol, .star clsS, .group 1 (.cls (fun c => c = '*' || isDigitC c)),
       plus clsS, plus clsNS, plus clsS, .group 2 (plus clsWD),
       plus clsS, .group 3 (plus clsMac), plus clsS, .group 4 (plus clsW)]

/-- Cisco `r"Switch\s+(\d+)\s+SERIAL NUMBER\s+:\s+(\S+)"` (`re.I | re.M`). -/
def pcSN : RE :=
  cat [litCI "Switch", plus clsS, .group 1 (plus clsD), plus clsS,
       litCI "SERIAL NUMBER", plus clsS, lit ":", plus clsS, .group 2 (plus clsNS)]

/-- Cisco `r"System Serial Number\s+:\s+(\S+)"` (`re.I`). -/
def pcSysSN : RE :=
  cat [litCI "System Serial Number", plus clsS, lit ":", plus clsS, .group 1 (plus clsNS)]

/-- Cisco `r"Model Number\s+:\s+(\S+)"` (`re.I`). -/
def pcModelNum : RE :=
  cat [litCI "Model Number", plus clsS, lit ":", plus clsS, .group 1 (plus clsNS)]

/-- Cisco `r"Cisco IOS.*, Version (\S+),"` (`re.I`). -/
def pcIOSVer : RE :=
  cat [litCI "Cisco IOS", .star clsDot, litCI ", Version ", .group 1 (plus clsNS), lit ","]

/-- Huawei/H3C `r"<(\S+?)>"` (`re.I`). -/
def phPrompt : RE :=
  cat [lit "<", .group 1 (plusL clsNS), lit ">"]

/-- Huawei/H3C `r"^\s*(?:sysname|hostname)\s+(.+?)\s*$"` (`re.I | re.M`). -/
def phHostname : RE :=
  cat [.bol, .star clsS, .alt (litCI "sysname") (litCI "hostname"), plus clsS,
       .group 1 (plusL clsDot), .star clsS, .eolM]

/-- Huawei `r"clock status\s*:\s*(.+)"` (`re.I`). -/
def phClock : RE :=
  cat [litCI "clock status", .star clsS, lit ":", .star clsS, .group 1 (plus clsDot)]

/-- Huawei `r"Version \d\.\d+ \((.+?)\)"` (`re.I`). -/
def phVer : RE :=
  cat [litCI "Version ", clsD, lit ".", plus clsD, lit " (",
       .group 1 (plusL clsDot), lit ")"]

/-- Huawei member row
`r"^\s*(\d+)\s+(\w+)\s+\w+\s+([\w-]+)\s+([0-9A-Z]+)"` (`re.M | re.I`). -/
def phRow : RE :=
  cat [.bol, .star clsS, .group 1 (plus clsD), plus clsS, .group 2 (plus clsW),
       plus clsS, plus clsW, plus clsS, .group 3 (plus clsWD),
       plus clsS, .group 4 (plus clsAlnum)]

/-- Huawei `r"CPU Usage for Slot\s+(\d+)\s+is\s+(\S+)"` (`re.I | re.M`). -/
def phCpuMap : RE :=
  cat [litCI "CPU Usage for Slot", plus clsS, .group 1 (plus clsD), plus clsS,
       litCI "is", plus clsS, .group 2 (plus clsNS)]

/-- Huawei `r"Memory usage of slot\s+(\d+):\s+(\S+)"` (`re.I | re.M`). -/
def phMemMap : RE :=
  cat [litCI "Memory usage of slot", plus clsS, .group 1 (plus clsD), lit ":",
       plus clsS, .group 2 (plus clsNS)]

/-- Huawei `r"BARCODE\s+:\s+(\S+)"` (`re.I | re.M`). -/
def phBarcode : RE :=
  cat [litCI "BARCODE", plus clsS, lit ":", plus clsS, .group 1 (plus clsNS)]

/-- Huawei `r"ITEM\s+:\s+(\S+)"` (`re.I | re.M`). -/
def phItem : RE :=
  cat [litCI "ITEM", plus clsS, lit ":", plus clsS, .group 1 (plus clsNS)]

/-- Huawei `r"Control Plane\s+CPU Usage is\s*(\S+)"` (no flags:
case-sensitive). -/
def phCtrlCpu : RE :=
  cat [lit "Control Plane", plus clsS, lit "CPU Usage is", .star clsS,
       .group 1 (plus clsNS)]

/-- Huawei `r"Memory Using Percentage Is\s*(\S+)"` (no flags:
case-sensitive). -/
def phMemPct : RE :=
  cat [lit "Memory Using Percentage Is", .star clsS, .group 1 (plus clsNS)]

/-- H3C `r"Clock status: (.+)"` (`re.I`). -/
def p3Clock : RE := .seq (litCI "Clock status: ") (.group 1 (plus clsDot))

/-- H3C `r"Comware Software, Version ([\d\.]+)"` (`re.I`). -/
def p3Ver : RE :=
  .seq (litCI "Comware Software, Version ")
    (.group 1 (plus (.cls (fun c => isDigitC c || c = '.'))))

/-- H3C member row
`r"^\s*(\d+)\s+(\w+)\s+([\w-]+)\s+([A-Z0-9]+)"` (`re.M | re.I`). -/
def p3Row : RE :=
  cat [.bol, .star clsS, .group 1 (plus clsD), plus clsS, .group 2 (plus clsW),
       plus clsS, .group 3 (plus clsWD), plus clsS, .group 4 (plus clsAlnum)]

/-- H3C `r"Slot\s+(\d+)\s+CPU usage:\s+(\S+)"` (`re.I | re.M`). -/
def p3CpuMap : RE :=
  cat [litCI "Slot", plus clsS, .group 1 (plus clsD), plus clsS,
       litCI "CPU usage:", plus clsS, .group 2 (plus clsNS)]

/-- H3C `r"Slot\s+(\d+)\s+memory usage\s+\(Ratio\):\s+(\S+)"` (`re.I | re.M`). -/
def p3MemMap : RE :=
  cat [litCI "Slot", plus clsS, .group 1 (plus clsD), plus clsS,
       litCI "memory usage", plus clsS, litCI "(Ratio):", plus clsS,
       .group 2 (plus clsNS)]

/-- H3C `r"Device serial number:\s*(\S+)"` (`re.I`). -/
def p3SN : RE :=
  cat [litCI "Device serial number:", .star clsS, .group 1 (plus clsNS)]

/-- H3C `r"Device model:\s*(\S+)"` (`re.I`). -/
def p3Model : RE :=
  cat [litCI "Device model:", .star clsS, .group 1 (plus clsNS)]

/-- H3C `r"CPU average usage:\s*(\S+)"` (`re.I`). -/
def p3Cpu : RE :=
  cat [litCI "CPU average usage:", .star clsS, .group 1 (plus clsNS)]

/-- H3C `r"Memory usage:\s*(\S+)"` (`re.I`). -/
def p3Mem : RE :=
  cat [litCI "Memory usage:", .star clsS, .group 1 (plus clsNS)]

/-- Dispatcher `r"Cisco IOS|\s#show"` (`re.I`). -/
def fpCisco : RE := .alt (litCI "Cisco IOS") (.seq clsS (litCI "#show"))

/-- Dispatcher `r"VRP \(R\) software|HUAWEI|<HUAWEI>|display device"` (`re.I`). -/
def fpHuawei : RE :=
  .alt (litCI "VRP (R) software")
    (.alt (litCI "HUAWEI") (.alt (litCI "<HUAWEI>") (litCI "display device")))

/-- Dispatcher `r"Comware Software|<H3C>|display irf"` (`re.I`). -/
def fpH3C : RE :=
  .alt (litCI "Comware Software") (.alt (litCI "<H3C>") (litCI "display irf"))

/-- Generic scan `r"^\s*(.+?)\s*:\s*(.+?)\s*$"` (`re.M`). -/
def kvRe : RE :=
  cat [.bol, .star clsS, .group 1 (plusL clsDot), .star clsS, lit ":",
       .star clsS, .group 2 (plusL clsDot), .star clsS, .eolM]

/-- Filename pattern `r"^(\d{1,3}\.\d{1,3}\.\d{1,3}\.\d{1,3}).*\.txt$"`
(no flags), used with `re.match`.  `\d{1,3}` is a greedy one-to-three
digit run; the final `$` is the non-multiline anchor. -/
def fnRe : RE :=
  let octet := cat [clsD, opt clsD, opt clsD]
  cat [.group 1 (cat [octet, lit ".", octet, lit ".", octet, lit ".", octet]),
       .star clsDot, lit ".txt", .eos]

/-! ## Field extraction helpers shared by the parsers -/

/-- `re.search` returning `m.group(1)`. -/
def search1 (content : String) (re : RE) : Option String :=
  (reSearch content.data re).map (fun g => grpS content.data g 1)

/-- `m.group(1).strip() if m else "N/A"`. -/
def fieldStrip (content : String) (re : RE) : String :=
  match search1 content re with
  | some s => pyStrip s
  | Option.none => "N/A"

/-- `m.group(1) if m else "N/A"`. -/
def fieldRaw (content : String) (re : RE) : String :=
  match search1 content re with
  | some s => s
  | Option.none => "N/A"

/-- Python truthiness of the `hostname` variable (`None` and `""` are
falsy). -/
def pyTruthy : Option String → Bool
  | some s => !s.isEmpty
  | Option.none => false

/-- `hostname or "N/A"`. -/
def orNA : Option String → String
  | some s => if s.isEmpty then "N/A" else s
  | Option.none => "N/A"

/-- The prompt-first hostname strategy shared by all three extractors:
try the prompt pattern, and only when that left `hostname` falsy try the
line-anchored configuration pattern; finally apply `or "N/A"`. -/
def hostnameChain (content : String) (promptRe configRe : RE) : String :=
  let h1 : Option String := (search1 content promptRe).map pyStrip
  let h2 : Option String :=
    if pyTruthy h1 then h1
    else
      match (search1 content configRe).map pyStrip with
      | some s => some s
      | Option.none => h1
  orNA h2

/-- Direct dict indexing `member[k]` at sites where the source
guarantees the key is present and bound to a string. -/
def mIdx (m : Member) (k : String) : String := mgetD m k ""

/-! ## `parse_cisco` -/

/-- Cisco `data["cpu_utilization"]`: the five-second component
(`.split('/')[0]`) of the matched figure. -/
def ciscoCpuUtil (content : String) : String :=
  match search1 content pcCpu with
  | some s => beforeFirst s '/'
  | Option.none => "N/A"

/-- `int(m_total.group(1))` when the total pattern matched. -/
def ciscoMemTotal? (content : String) : Option Nat :=
  (search1 content pcTotal).map natDigits

/-- `int(m_used.group(1))` when the used pattern matched. -/
def ciscoMemUsed? (content : String) : Option Nat :=
  (search1 content pcUsed).map natDigits

/-- The Python expression `f"{(used/total*100):.2f}"` for `total > 0`,
modelled over the rationals: the percentage `10000*used/total` in
hundredths is rounded half-to-even, then printed with two decimals.
The source computes in binary floating point; rounding agrees with the
float result whenever the quotient is exactly representable, in
particular on every concrete instance used below. -/
def fmt2 (used total : Nat) : String :=
  let a := 10000 * used
  let q := a / total
  let r := a % total
  let h :=
    if total < 2 * r then q + 1
    else if 2 * r < total then q
    else if q % 2 = 0 then q else q + 1
  toString (h / 100) ++ "." ++
    (if h % 100 < 10 then "0" ++ toString (h % 100) else toString (h % 100))

/-- Cisco `data["memory_utilization"]`. -/
def ciscoMemUtil (content : String) : String :=
  match ciscoMemTotal? content, ciscoMemUsed? content with
  | some t, some u => if 0 < t then fmt2 u t ++ "%" else "0%"
  | _, _ => "N/A"

/-- One Cisco `show switch` row turned into a member dict. -/
def ciscoRowMember (cs : List Char) (g : Groups) : Member :=
  [("id", some (pyStrip (pyReplaceC (grpS cs g 1) '*' ""))),
   ("model", some (grpS cs g 2)),
   ("mac_address", some (grpS cs g 3)),
   ("status", some (grpS cs g 4)),
   ("sn", some "N/A")]

/-- The Cisco cluster path: row matches with per-slot serial numbers
merged in, or `[]` when the marker command is absent (so that the
standalone fallback runs). -/
def ciscoClusterMembers (content : String) : List Member :=
  if pyContains content "show switch" then
    let cs := content.data
    let members := (reFindIter cs pcRow).map (ciscoRowMember cs)
    let snMap := (reFindIter cs pcSN).map (fun g => (grpS cs g 1, grpS cs g 2))
    members.map (fun m => mset m "sn" (some (dictGetD snMap (mIdx m "id") "N/A")))
  else []

/-- The Cisco standalone member (`id = "1"`), its `cpu`/`memory` copied
from the already-computed top-level fields via `data.get`. -/
def ciscoStandaloneMember (content : String) (base : Rec) : Member :=
  [("id", some "1"), ("status", some "Ready"),
   ("cpu", rgetS base "cpu_utilization"),
   ("memory", rgetS base "memory_utilization"),
   ("sn", some (fieldRaw content pcSysSN)),
   ("model", some (fieldRaw content pcModelNum))]

/-- `parse_cisco` up to the cluster/standalone branch: vendor, empty
member list, hostname and the scalar fields. -/
def ciscoBase (content : String) : Rec :=
  let r : Rec := [("vendor", .s "Cisco"), ("members", .ms [])]
  let r := rset r "hostname" (.s (hostnameChain content pcPrompt pcHostname))
  let r := rset r "uptime" (.s (fieldStrip content pUptime))
  let r := rset r "ntp_status" (.s (fieldStrip content pcClock))
  let r := rset r "cpu_utilization" (.s (ciscoCpuUtil content))
  rset r "memory_utilization" (.s (ciscoMemUtil content))

/-- `parse_cisco` of `txt2docx-v0.0.4.py`. -/
def parse_cisco (content : String) : Rec :=
  let base := ciscoBase content
  let cm := ciscoClusterMembers content
  if cm.isEmpty then
    let member := ciscoStandaloneMember content base
    let r := rset base "ios_version" (.s (fieldRaw content pcIOSVer))
    let r := rset r "sn" (.s (fieldRaw content pcSysSN))
    let r := rset r "model" (.s (fieldRaw content pcModelNum))
    let r := rset r "members" (.ms [member])
    rset r "is_stack" (.b false)
  else
    rset (rset base "members" (.ms cm)) "is_stack" (.b (decide (1 < cm.length)))

/-! ## `parse_huawei` -/

/-- One Huawei `display device` row turned into a member dict. -/
def huaweiRowMember (cs : List Char) (g : Groups) : Member :=
  [("id", some (grpS cs g 1)), ("role", some (grpS cs g 2)),
   ("model", some (grpS cs g 3)), ("sn", some (grpS cs g 4)),
   ("cpu", some "N/A"), ("memory", some "N/A")]

/-- The Huawei cluster path.  Note `cpu_map.get(member["id"])` and
`mem_map.get(member["id"])` carry no default, so a member whose slot is
absent from the maps ends with `cpu`/`memory` bound to Python `None`. -/
def huaweiClusterMembers (content : String) : List Member :=
  if pyContains content "display device" then
    let cs := content.data
    let members := (reFindIter cs phRow).map (huaweiRowMember cs)
    let cpuMap := (reFindIter cs phCpuMap).map (fun g => (grpS cs g 1, grpS cs g 2))
    let memMap := (reFindIter cs phMemMap).map (fun g => (grpS cs g 1, grpS cs g 2))
    members.map (fun m =>
      mset (mset m "cpu" (dictGet? cpuMap (mIdx m "id")))
        "memory" (dictGet? memMap (mIdx m "id")))
  else []

/-- The master-promotion loop of `parse_huawei`/`parse_h3c`: the first
member whose `role` lower-cases to `"master"` has
`m.get(k)` stored into `data[k]` for the four listed keys.  The member
dict has no keys `cpu_utilization`/`memory_utilization` (its keys are
`cpu`/`memory`), so those two lookups yield Python `None`. -/
def promoteMaster (data : Rec) (cm : List Member) : Rec :=
  match cm.find? (fun m => pyLower (mgetD m "role" "") == "master") with
  | some m =>
    let r := rset data "cpu_utilization" (pyVal (mgetPy m "cpu_utilization"))
    let r := rset r "memory_utilization" (pyVal (mgetPy m "memory_utilization"))
    let r := rset r "sn" (pyVal (mgetPy m "sn"))
    rset r "model" (pyVal (mgetPy m "model"))
  | Option.none => data

/-- The Huawei standalone member (`id = "1"`). -/
def huaweiStandaloneMember (content : String) : Member :=
  [("id", some "1"),
   ("sn", some (fieldRaw content phBarcode)),
   ("model", some (fieldRaw content phItem)),
   ("cpu", some (fieldRaw content phCtrlCpu)),
   ("memory", some (fieldRaw content phMemPct))]

/-- `parse_huawei` up to the cluster/standalone branch. -/
def huaweiBase (content : String) : Rec :=
  let r : Rec := [("vendor", .s "Huawei"), ("members", .ms [])]
  let r := rset r "hostname" (.s (hostnameChain content phPrompt phHostname))
  let r := rset r "uptime" (.s (fieldStrip content pUptime))
  let r := rset r "ntp_status" (.s (fieldStrip content phClock))
  rset r "ios_version" (.s (fieldRaw content phVer))

/-- `parse_huawei` of `txt2docx-v0.0.4.py`. -/
def parse_huawei (content : String) : Rec :=
  let base := huaweiBase content
  let cm := huaweiClusterMembers content
  if cm.isEmpty then
    let member := huaweiStandaloneMember content
    let r := rset base "sn" (.s (mIdx member "sn"))
    let r := rset r "model" (.s (mIdx member "model"))
    let r := rset r "cpu_utilization" (.s (mIdx member "cpu"))
    let r := rset r "memory_utilization" (.s (mIdx member "memory"))
    let r := rset r "members" (.ms [member])
    rset r "is_stack" (.b false)
  else
    let r := rset (rset base "members" (.ms cm)) "is_stack" (.b (decide (1 < cm.length)))
    promoteMaster r cm

/-! ## `parse_h3c` -/

/-- One H3C `display irf`/`display device` row turned into a member dict. -/
def h3cRowMember (cs : List Char) (g : Groups) : Member :=
  [("id", some (grpS cs g 1)), ("role", some (grpS cs g 2)),
   ("model", some (grpS cs g 3)), ("sn", some (grpS cs g 4)),
   ("cpu", some "N/A"), ("memory", some "N/A")]

/-- The H3C cluster path (same missing-default note as for Huawei). -/
def h3cClusterMembers (content : String) : List Member :=
  if pyContains content "display irf" || pyContains content "display device" then
    let cs := content.data
    let members := (reFindIter cs p3Row).map (h3cRowMember cs)
    let cpuMap := (reFindIter cs p3CpuMap).map (fun g => (grpS cs g 1, grpS cs g 2))
    let memMap := (reFindIter cs p3MemMap).map (fun g => (grpS cs g 1, grpS cs g 2))
    members.map (fun m =>
      mset (mset m "cpu" (dictGet? cpuMap (mIdx m "id")))
        "memory" (dictGet? memMap (mIdx m "id")))
  else []

/-- The H3C standalone member (`id = "1"`). -/
def h3cStandaloneMember (content : String) : Member :=
  [("id", some "1"),
   ("sn", some (fieldRaw content p3SN)),
   ("model", some (fieldRaw content p3Model)),
   ("cpu", some (fieldRaw content p3Cpu)),
   ("memory", some (fieldRaw content p3Mem))]

/-- `parse_h3c` up to the cluster/standalone branch. -/
def h3cBase (content : String) : Rec :=
  let r : Rec := [("vendor", .s "H3C"), ("members", .ms [])]
  let r := rset r "hostname" (.s (hostnameChain content phPrompt phHostname))
  let r := rset r "uptime" (.s (fieldStrip content pUptime))
  let r := rset r "ntp_status" (.s (fieldStrip content p3Clock))
  rset r "ios_version" (.s (fieldRaw content p3Ver))

/-- `parse_h3c` of `txt2docx-v0.0.4.py`. -/
def parse_h3c (content : String) : Rec :=
  let base := h3cBase content
  let cm := h3cClusterMembers content
  if cm.isEmpty then
    let member := h3cStandaloneMember content
    let r := rset base "sn" (.s (mIdx member "sn"))
    let r := rset r "model" (.s (mIdx member "model"))
    let r := rset r "cpu_utilization" (.s (mIdx member "cpu"))
    let r := rset r "memory_utilization" (.s (mIdx member "memory"))
    let r := rset r "members" (.ms [member])
    rset r "is_stack" (.b false)
  else
    let r := rset (rset base "members" (.ms cm)) "is_stack" (.b (decide (1 < cm.length)))
    promoteMaster r cm

/-! ## `parse_device_info` -/

/-- Whether a fingerprint pattern matches anywhere in the capture. -/
def reTest (content : String) (re : RE) : Bool := (reSearch content.data re).isSome

/-- The generic Unknown fallback: the initial record, then one store per
`label : value` line, the key lower-cased with spaces replaced by
underscores. -/
def genericRecord (content : String) : Rec :=
  let cs := content.data
  let base : Rec := [("vendor", .s "Unknown"), ("is_stack", .b false), ("members", .ms [[]])]
  (reFindIter cs kvRe).foldl
    (fun r g =>
      rset r (pyReplaceC (pyLower (grpS cs g 1)) ' ' "_") (.s (pyStrip (grpS cs g 2))))
    base

/-- `parse_device_info` of `txt2docx-v0.0.4.py`, with the file read
abstracted away: it receives the decoded capture text directly. -/
def parse_device_info (ip_address content : String) : Rec :=
  let parsed :=
    if reTest content fpCisco then parse_cisco content
    else if reTest content fpHuawei then parse_huawei content
    else if reTest content fpH3C then parse_h3c content
    else genericRecord content
  rUpdate [("_filename", .s ip_address)] parsed

/-! ## `sort_by_ip` -/

/-- One octet as `ipaddress.ip_address` accepts it: decimal digits, no
leading zero (unless the octet is exactly `"0"`), value at most 255. -/
def octet? (p : String) : Option Nat :=
  if p.isEmpty then Option.none
  else if !p.data.all isDigitC then Option.none
  else if 1 < p.length && p.data.head? = some '0' then Option.none
  else if 255 < natDigits p then Option.none
  else some (natDigits p)

/-- `int(ipaddress.ip_address(s))` for a dotted-quad candidate:
`Option.none` models the `ValueError` branch. -/
def parseIPv4? (s : String) : Option Nat :=
  match splitDot s with
  | [a, b, c, d] =>
    match octet? a, octet? b, octet? c, octet? d with
    | some x, some y, some z, some w => some (((x * 256 + y) * 256 + z) * 256 + w)
    | _, _, _, _ => Option.none
  | _ => Option.none

/-- Python `re.match`: the pattern anchored at position 0. -/
def reMatch0 (s : String) (re : RE) : Option Groups :=
  reMatchHere (fuelFor s.data) re s.data '\n' 0

/-- The `ip_key` closure of `sort_by_ip`: parse the leading address of
the filename, with `"255.255.255.255"` both for a non-matching name and
for a `ValueError`. -/
def ip_key (name : String) : Nat :=
  let ip_str :=
    match reMatch0 name fnRe with
    | some g => grpS name.data g 1
    | Option.none => "255.255.255.255"
  match parseIPv4? ip_str with
  | some v => v
  | Option.none => 4294967295

/-- `sort_by_ip`: Python `sorted(file_list, key=ip_key)` is the stable
sort by `ip_key`; insertion sort is stable, and stable sorts by one
`Nat` key produce identical output. -/
def sort_by_ip (files : List String) : List String :=
  List.insertionSort (fun a b => ip_key a ≤ ip_key b) files

/-- The normalized labels stored by the generic fallback, in scan order. -/
def genericKeys (content : String) : List String :=
  (reFindIter content.data kvRe).map
    (fun g => pyReplaceC (pyLower (grpS content.data g 1)) ' ' "_")

/-! ## Lookup lemmas -/

theorem mget_mset_same (m : Member) (k : String) (v : Option String) :
    mget (mset m k v) k = some v := by
  induction m with
  | nil => simp [mget, mset]
  | cons p t ih =>
    by_cases h : p.1 = k <;> simp [mget, mset, h, ih]

theorem mget_mset_ne (m : Member) (k q : String) (v : Option String) (h : q ≠ k) :
    mget (mset m k v) q = mget m q := by
  have hkq : (k = q) = False := by
    simp only [eq_iff_iff, iff_false]
    exact fun he => h he.symm
  induction m with
  | nil => simp [mget, mset, hkq]
  | cons p t ih =>
    by_cases hp : p.1 = k
    · simp [mget, mset, hp, hkq]
    · simp [mget, mset, hp, ih]

/-- A fold of stores whose keys all differ from `q` leaves `q` unchanged. -/
theorem rget_foldl_rset_notin (f : α → String) (v : α → Val) (l : List α)
    (r : Rec) (q : String) (h : ∀ a ∈ l, f a ≠ q) :
    rget (l.foldl (fun r a => rset r (f a) (v a)) r) q = rget r q := by
  induction l generalizing r with
  | nil => simp
  | cons a t ih =>
    simp only [List.foldl_cons]
    rw [ih (rset r (f a) (v a)) (fun b hb => h b (List.mem_cons_of_mem a hb))]
    exact rget_rset_ne r (f a) q (v a) (fun he => h a (List.mem_cons_self a t) he.symm)

/-- `promoteMaster` never touches the `members` key. -/
theorem promoteMaster_members (r : Rec) (cm : List Member) :
    rget (promoteMaster r cm) "members" = rget r "members" := by
  unfold promoteMaster
  cases cm.find? (fun m => pyLower (mgetD m "role" "") == "master") with
  | none => rfl
  | some m =>
    rw [rget_rset_ne _ _ _ _ (by decide), rget_rset_ne _ _ _ _ (by decide),
        rget_rset_ne _ _ _ _ (by decide), rget_rset_ne _ _ _ _ (by decide)]

/-- `promoteMaster` never touches the `is_stack` key. -/
theorem promoteMaster_is_stack (r : Rec) (cm : List Member) :
    rget (promoteMaster r cm) "is_stack" = rget r "is_stack" := by
  unfold promoteMaster
  cases cm.find? (fun m => pyLower (mgetD m "role" "") == "master") with
  | none => rfl
  | some m =>
    rw [rget_rset_ne _ _ _ _ (by decide), rget_rset_ne _ _ _ _ (by decide),
        rget_rset_ne _ _ _ _ (by decide), rget_rset_ne _ _ _ _ (by decide)]

/-- `promoteMaster` never touches the `vendor` key. -/
theorem promoteMaster_vendor (r : Rec) (cm : List Member) :
    rget (promoteMaster r cm) "vendor" = rget r "vendor" := by
  unfold promoteMaster
  cases cm.find? (fun m => pyLower (mgetD m "role" "") == "master") with
  | none => rfl
  | some m =>
    rw [rget_rset_ne _ _ _ _ (by decide), rget_rset_ne _ _ _ _ (by decide),
        rget_rset_ne _ _ _ _ (by decide), rget_rset_ne _ _ _ _ (by decide)]

/-- `promoteMaster` never touches the `hostname` key. -/
theorem promoteMaster_hostname (r : Rec) (cm : List Member) :
    rget (promoteMaster r cm) "hostname" = rget r "hostname" := by
  unfold promoteMaster
  cases cm.find? (fun m => pyLower (mgetD m "role" "") == "master") with
  | none => rfl
  | some m =>
    rw [rget_rset_ne _ _ _ _ (by decide), rget_rset_ne _ _ _ _ (by decide),
        rget_rset_ne _ _ _ _ (by decide), rget_rset_ne _ _ _ _ (by decide)]

/-! ## Per-field lookup lemmas for the parsers -/

theorem parse_cisco_members (c : String) :
    rget (parse_cisco c) "members" =
      some (.ms (if (ciscoClusterMembers c).isEmpty
        then [ciscoStandaloneMember c (ciscoBase c)]
        else ciscoClusterMembers c)) := by
  unfold parse_cisco
  by_cases h : (ciscoClusterMembers c).isEmpty <;>
    simp only [h, if_true, if_false, Bool.false_eq_true] <;>
    rw [rget_rset_ne _ _ _ _ (by decide), rget_rset_same]

theorem parse_cisco_is_stack (c : String) :
    rget (parse_cisco c) "is_stack" =
      some (.b (if (ciscoClusterMembers c).isEmpty
        then false
        else decide (1 < (ciscoClusterMembers c).length))) := by
  unfold parse_cisco
  by_cases h : (ciscoClusterMembers c).isEmpty <;>
    simp only [h, if_true, if_false, Bool.false_eq_true] <;>
    rw [rget_rset_same]

theorem ciscoBase_vendor (c : String) :
    rget (ciscoBase c) "vendor" = some (.s "Cisco") := by
  unfold ciscoBase
  rw [rget_rset_ne _ _ _ _ (by decide), rget_rset_ne _ _ _ _ (by decide),
      rget_rset_ne _ _ _ _ (by decide), rget_rset_ne _ _ _ _ (by decide),
      rget_rset_ne _ _ _ _ (by decide)]
  rfl

theorem ciscoBase_hostname (c : String) :
    rget (ciscoBase c) "hostname" =
      some (.s (hostnameChain c pcPrompt pcHostname)) := by
  unfold ciscoBase
  rw [rget_rset_ne _ _ _ _ (by decide), rget_rset_ne _ _ _ _ (by decide),
      rget_rset_ne _ _ _ _ (by decide), rget_rset_ne _ _ _ _ (by decide),
      rget_rset_same]

theorem ciscoBase_memutil (c : String) :
    rget (ciscoBase c) "memory_utilization" = some (.s (ciscoMemUtil c)) := by
  unfold ciscoBase
  rw [rget_rset_same]

theorem ciscoBase_sn (c : String) :
    rget (ciscoBase c) "sn" = Option.none := by
  unfold ciscoBase
  rw [rget_rset_ne _ _ _ _ (by decide), rget_rset_ne _ _ _ _ (by decide),
      rget_rset_ne _ _ _ _ (by decide), rget_rset_ne _ _ _ _ (by decide),
      rget_rset_ne _ _ _ _ (by decide)]
  rfl

theorem ciscoBase_model (c : String) :
    rget (ciscoBase c) "model" = Option.none := by
  unfold ciscoBase
  rw [rget_rset_ne _ _ _ _ (by decide), rget_rset_ne _ _ _ _ (by decide),
      rget_rset_ne _ _ _ _ (by decide), rget_rset_ne _ _ _ _ (by decide),
      rget_rset_ne _ _ _ _ (by decide)]
  rfl

theorem parse_cisco_vendor (c : String) :
    rget (parse_cisco c) "vendor" = some (.s "Cisco") := by
  unfold parse_cisco
  by_cases h : (ciscoClusterMembers c).isEmpty <;>
    simp only [h, if_true, if_false, Bool.false_eq_true]
  · rw [rget_rset_ne _ _ _ _ (by decide), rget_rset_ne _ _ _ _ (by decide),
        rget_rset_ne _ _ _ _ (by decide), rget_rset_ne _ _ _ _ (by decide),
        rget_rset_ne _ _ _ _ (by decide), ciscoBase_vendor]
  · rw [rget_rset_ne _ _ _ _ (by decide), rget_rset_ne _ _ _ _ (by decide),
        ciscoBase_vendor]

theorem parse_cisco_hostname (c : String) :
    rget (parse_cisco c) "hostname" =
      some (.s (hostnameChain c pcPrompt pcHostname)) := by
  unfold parse_cisco
  by_cases h : (ciscoClusterMembers c).isEmpty <;>
    simp only [h, if_true, if_false, Bool.false_eq_true]
  · rw [rget_rset_ne _ _ _ _ (by decide), rget_rset_ne _ _ _ _ (by decide),
        rget_rset_ne _ _ _ _ (by decide), rget_rset_ne _ _ _ _ (by decide),
        rget_rset_ne _ _ _ _ (by decide), ciscoBase_hostname]
  · rw [rget_rset_ne _ _ _ _ (by decide), rget_rset_ne _ _ _ _ (by decide),
        ciscoBase_hostname]

theorem parse_cisco_memutil (c : String) :
    rget (parse_cisco c) "memory_utilization" = some (.s (ciscoMemUtil c)) := by
  unfold parse_cisco
  by_cases h : (ciscoClusterMembers c).isEmpty <;>
    simp only [h, if_true, if_false, Bool.false_eq_true]
  · rw [rget_rset_ne _ _ _ _ (by decide), rget_rset_ne _ _ _ _ (by decide),
        rget_rset_ne _ _ _ _ (by decide), rget_rset_ne _ _ _ _ (by decide),
        rget_rset_ne _ _ _ _ (by decide), ciscoBase_memutil]
  · rw [rget_rset_ne _ _ _ _ (by decide), rget_rset_ne _ _ _ _ (by decide),
        ciscoBase_memutil]

theorem parse_cisco_sn_cluster (c : String)
    (h : (ciscoClusterMembers c).isEmpty = false) :
    rget (parse_cisco c) "sn" = Option.none := by
  unfold parse_cisco
  simp only [h, if_false, Bool.false_eq_true]
  rw [rget_rset_ne _ _ _ _ (by decide), rget_rset_ne _ _ _ _ (by decide),
      ciscoBase_sn]

theorem parse_cisco_model_cluster (c : String)
    (h : (ciscoClusterMembers c).isEmpty = false) :
    rget (parse_cisco c) "model" = Option.none := by
  unfold parse_cisco
  simp only [h, if_false, Bool.false_eq_true]
  rw [rget_rset_ne _ _ _ _ (by decide), rget_rset_ne _ _ _ _ (by decide),
      ciscoBase_model]

theorem huaweiBase_vendor (c : String) :
    rget (huaweiBase c) "vendor" = some (.s "Huawei") := by
  unfold huaweiBase
  rw [rget_rset_ne _ _ _ _ (by decide), rget_rset_ne _ _ _ _ (by decide),
      rget_rset_ne _ _ _ _ (by decide), rget_rset_ne _ _ _ _ (by decide)]
  rfl

theorem huaweiBase_hostname (c : String) :
    rget (huaweiBase c) "hostname" =
      some (.s (hostnameChain c phPrompt phHostname)) := by
  unfold huaweiBase
  rw [rget_rset_ne _ _ _ _ (by decide), rget_rset_ne _ _ _ _ (by decide),
      rget_rset_ne _ _ _ _ (by decide), rget_rset_same]

theorem parse_huawei_members (c : String) :
    rget (parse_huawei c) "members" =
      some (.ms (if (huaweiClusterMembers c).isEmpty
        then [huaweiStandaloneMember c]
        else huaweiClusterMembers c)) := by
  unfold parse_huawei
  by_cases h : (huaweiClusterMembers c).isEmpty <;>
    simp only [h, if_true, if_false, Bool.false_eq_true]
  · rw [rget_rset_ne _ _ _ _ (by decide), rget_rset_same]
  · rw [promoteMaster_members, rget_rset_ne _ _ _ _ (by decide), rget_rset_same]

theorem parse_huawei_is_stack (c : String) :
    rget (parse_huawei c) "is_stack" =
      some (.b (if (huaweiClusterMembers c).isEmpty
        then false
        else decide (1 < (huaweiClusterMembers c).length))) := by
  unfold parse_huawei
  by_cases h : (huaweiClusterMembers c).isEmpty <;>
    simp only [h, if_true, if_false, Bool.false_eq_true]
  · rw [rget_rset_same]
  · rw [promoteMaster_is_stack, rget_rset_same]

theorem parse_huawei_vendor (c : String) :
    rget (parse_huawei c) "vendor" = some (.s "Huawei") := by
  unfold parse_huawei
  by_cases h : (huaweiClusterMembers c).isEmpty <;>
    simp only [h, if_true, if_false, Bool.false_eq_true]
  · rw [rget_rset_ne _ _ _ _ (by decide), rget_rset_ne _ _ _ _ (by decide),
        rget_rset_ne _ _ _ _ (by decide), rget_rset_ne _ _ _ _ (by decide),
        rget_rset_ne _ _ _ _ (by decide), rget_rset_ne _ _ _ _ (by decide),
        huaweiBase_vendor]
  · rw [promoteMaster_vendor, rget_rset_ne _ _ _ _ (by decide),
        rget_rset_ne _ _ _ _ (by decide), huaweiBase_vendor]

theorem parse_huawei_hostname (c : String) :
    rget (parse_huawei c) "hostname" =
      some (.s (hostnameChain c phPrompt phHostname)) := by
  unfold parse_huawei
  by_cases h : (huaweiClusterMembers c).isEmpty <;>
    simp only [h, if_true, if_false, Bool.false_eq_true]
  · rw [rget_rset_ne _ _ _ _ (by decide), rget_rset_ne _ _ _ _ (by decide),
        rget_rset_ne _ _ _ _ (by decide), rget_rset_ne _ _ _ _ (by decide),
        rget_rset_ne _ _ _ _ (by decide), rget_rset_ne _ _ _ _ (by decide),
        huaweiBase_hostname]
  · rw [promoteMaster_hostname, rget_rset_ne _ _ _ _ (by decide),
        rget_rset_ne _ _ _ _ (by decide), huaweiBase_hostname]

theorem h3cBase_vendor (c : String) :
    rget (h3cBase c) "vendor" = some (.s "H3C") := by
  unfold h3cBase
  rw [rget_rset_ne _ _ _ _ (by decide), rget_rset_ne _ _ _ _ (by decide),
      rget_rset_ne _ _ _ _ (by decide), rget_rset_ne _ _ _ _ (by decide)]
  rfl

theorem h3cBase_hostname (c : String) :
    rget (h3cBase c) "hostname" =
      some (.s (hostnameChain c phPrompt phHostname)) := by
  unfold h3cBase
  rw [rget_rset_ne _ _ _ _ (by decide), rget_rset_ne _ _ _ _ (by decide),
      rget_rset_ne _ _ _ _ (by decide), rget_rset_same]

theorem parse_h3c_hostname (c : String) :
    rget (parse_h3c c) "hostname" =
      some (.s (hostnameChain c phPrompt phHostname)) := by
  unfold parse_h3c
  by_cases h : (h3cClusterMembers c).isEmpty <;>
    simp only [h, if_true, if_false, Bool.false_eq_true]
  · rw [rget_rset_ne _ _ _ _ (by decide), rget_rset_ne _ _ _ _ (by decide),
        rget_rset_ne _ _ _ _ (by decide), rget_rset_ne _ _ _ _ (by decide),
        rget_rset_ne _ _ _ _ (by decide), rget_rset_ne _ _ _ _ (by decide),
        h3cBase_hostname]
  · rw [promoteMaster_hostname, rget_rset_ne _ _ _ _ (by decide),
        rget_rset_ne _ _ _ _ (by decide), h3cBase_hostname]

theorem parse_h3c_members (c : String) :
    rget (parse_h3c c) "members" =
      some (.ms (if (h3cClusterMembers c).isEmpty
        then [h3cStandaloneMember c]
        else h3cClusterMembers c)) := by
  unfold parse_h3c
  by_cases h : (h3cClusterMembers c).isEmpty <;>
    simp only [h, if_true, if_false, Bool.false_eq_true]
  · rw [rget_rset_ne _ _ _ _ (by decide), rget_rset_same]
  · rw [promoteMaster_members, rget_rset_ne _ _ _ _ (by decide), rget_rset_same]

theorem parse_h3c_is_stack (c : String) :
    rget (parse_h3c c) "is_stack" =
      some (.b (if (h3cClusterMembers c).isEmpty
        then false
        else decide (1 < (h3cClusterMembers c).length))) := by
  unfold parse_h3c
  by_cases h : (h3cClusterMembers c).isEmpty <;>
    simp only [h, if_true, if_false, Bool.false_eq_true]
  · rw [rget_rset_same]
  · rw [promoteMaster_is_stack, rget_rset_same]

theorem parse_h3c_vendor (c : String) :
    rget (parse_h3c c) "vendor" = some (.s "H3C") := by
  unfold parse_h3c
  by_cases h : (h3cClusterMembers c).isEmpty <;>
    simp only [h, if_true, if_false, Bool.false_eq_true]
  · rw [rget_rset_ne _ _ _ _ (by decide), rget_rset_ne _ _ _ _ (by decide),
        rget_rset_ne _ _ _ _ (by decide), rget_rset_ne _ _ _ _ (by decide),
        rget_rset_ne _ _ _ _ (by decide), rget_rset_ne _ _ _ _ (by decide),
        h3cBase_vendor]
  · rw [promoteMaster_vendor, rget_rset_ne _ _ _ _ (by decide),
        rget_rset_ne _ _ _ _ (by decide), h3cBase_vendor]

/-- The cluster/standalone member-list choice is a nonempty list. -/
theorem choice_nonempty (cm : List Member) (m : Member) :
    ∃ ms, (if cm.isEmpty then [m] else cm) = ms ∧ 1 ≤ ms.length := by
  cases cm with
  | nil => exact ⟨[m], rfl, by simp⟩
  | cons a t => exact ⟨a :: t, rfl, by simp⟩

/-- The generic fallback leaves a key untouched when no scanned label
normalizes to it. -/
theorem genericRecord_notin (content q : String) (h : ¬ q ∈ genericKeys content) :
    rget (genericRecord content) q =
      rget [("vendor", Val.s "Unknown"), ("is_stack", Val.b false),
            ("members", Val.ms [[]])] q := by
  unfold genericRecord
  exact rget_foldl_rset_notin
    (fun g => pyReplaceC (pyLower (grpS content.data g 1)) ' ' "_")
    (fun g => Val.s (pyStrip (grpS content.data g 2)))
    (reFindIter content.data kvRe) _ q
    (fun g hg he => h (he ▸ List.mem_map_of_mem _ hg))

/-! ## Claims -/

/-- C1 (amended): `parse_cisco`, `parse_huawei` and `parse_h3c` always
return a `members` list of length at least one (cluster rows when found,
otherwise the single standalone member), and the generic Unknown
fallback keeps its single empty member placeholder provided no scanned
`label : value` line has a label normalizing to the key `members`. -/
theorem C1_members_list (content : String) :
    (∃ ms, rget (parse_cisco content) "members" = some (Val.ms ms) ∧ 1 ≤ ms.length) ∧
    (∃ ms, rget (parse_huawei content) "members" = some (Val.ms ms) ∧ 1 ≤ ms.length) ∧
    (∃ ms, rget (parse_h3c content) "members" = some (Val.ms ms) ∧ 1 ≤ ms.length) ∧
    (¬ "members" ∈ genericKeys content →
      rget (genericRecord content) "members" = some (Val.ms [[]])) := by
  refine ⟨?_, ?_, ?_, ?_⟩
  · obtain ⟨ms, hms, hlen⟩ :=
      choice_nonempty (ciscoClusterMembers content)
        (ciscoStandaloneMember content (ciscoBase content))
    exact ⟨ms, by rw [parse_cisco_members, hms], hlen⟩
  · obtain ⟨ms, hms, hlen⟩ :=
      choice_nonempty (huaweiClusterMembers content) (huaweiStandaloneMember content)
    exact ⟨ms, by rw [parse_huawei_members, hms], hlen⟩
  · obtain ⟨ms, hms, hlen⟩ :=
      choice_nonempty (h3cClusterMembers content) (h3cStandaloneMember content)
    exact ⟨ms, by rw [parse_h3c_members, hms], hlen⟩
  · intro h
    rw [genericRecord_notin content "members" h]
    decide

/-- C1 (counterexample): on the fingerprint-free capture
`"Members : 2\n"` the generic fallback's scan overwrites the `members`
key with the string `"2"`, so the returned record has no member list at
all, let alone one of length at least one. -/
theorem C1_counterexample :
    ¬ ∃ ms : List Member,
      rget (parse_device_info "1.2.3.4" "Members : 2\n") "members" =
        some (Val.ms ms) ∧ 1 ≤ ms.length := by
  have h : rget (parse_device_info "1.2.3.4" "Members : 2\n") "members" =
      some (Val.s "2") := by decide
  rintro ⟨ms, hm, hl⟩
  rw [h] at hm
  exact Val.noConfusion (Option.some.inj hm)

/-- C1 (witness): the generic conjunct of `C1_members_list` applied to a
capture whose only label is `Uptime`. -/
theorem C1_witness :
    rget (genericRecord "Uptime : 5 days\n") "members" = some (Val.ms [[]]) :=
  (C1_members_list "Uptime : 5 days\n").2.2.2 (by decide)

/-- Every Cisco cluster member binds `id`, `sn` and `model` to strings. -/
theorem cisco_cluster_member_fields (content : String) (m : Member)
    (hm : m ∈ ciscoClusterMembers content) :
    (∃ s, mget m "id" = some (some s)) ∧ (∃ s, mget m "sn" = some (some s)) ∧
      (∃ s, mget m "model" = some (some s)) := by
  unfold ciscoClusterMembers at hm
  by_cases hmark : pyContains content "show switch"
  · simp only [hmark, if_true, List.map_map, List.mem_map] at hm
    obtain ⟨g, _, rfl⟩ := hm
    exact ⟨⟨_, by rw [Function.comp_apply, mget_mset_ne _ _ _ _ (by decide)]; exact rfl⟩,
      ⟨_, by rw [Function.comp_apply, mget_mset_same]⟩,
      ⟨_, by rw [Function.comp_apply, mget_mset_ne _ _ _ _ (by decide)]; exact rfl⟩⟩
  · simp [hmark] at hm

/-- Every Huawei cluster member binds `id`, `sn` and `model` to strings. -/
theorem huawei_cluster_member_fields (content : String) (m : Member)
    (hm : m ∈ huaweiClusterMembers content) :
    (∃ s, mget m "id" = some (some s)) ∧ (∃ s, mget m "sn" = some (some s)) ∧
      (∃ s, mget m "model" = some (some s)) := by
  unfold huaweiClusterMembers at hm
  by_cases hmark : pyContains content "display device"
  · simp only [hmark, if_true, List.map_map, List.mem_map] at hm
    obtain ⟨g, _, rfl⟩ := hm
    exact ⟨⟨_, by rw [Function.comp_apply, mget_mset_ne _ _ _ _ (by decide),
            mget_mset_ne _ _ _ _ (by decide)]; exact rfl⟩,
      ⟨_, by rw [Function.comp_apply, mget_mset_ne _ _ _ _ (by decide),
            mget_mset_ne _ _ _ _ (by decide)]; exact rfl⟩,
      ⟨_, by rw [Function.comp_apply, mget_mset_ne _ _ _ _ (by decide),
            mget_mset_ne _ _ _ _ (by decide)]; exact rfl⟩⟩
  · simp [hmark] at hm

/-- Every H3C cluster member binds `id`, `sn` and `model` to strings. -/
theorem h3c_cluster_member_fields (content : String) (m : Member)
    (hm : m ∈ h3cClusterMembers content) :
    (∃ s, mget m "id" = some (some s)) ∧ (∃ s, mget m "sn" = some (some s)) ∧
      (∃ s, mget m "model" = some (some s)) := by
  unfold h3cClusterMembers at hm
  by_cases hmark : pyContains content "display irf" || pyContains content "display device"
  · simp only [hmark, if_true, List.map_map, List.mem_map] at hm
    obtain ⟨g, _, rfl⟩ := hm
    exact ⟨⟨_, by rw [Function.comp_apply, mget_mset_ne _ _ _ _ (by decide),
            mget_mset_ne _ _ _ _ (by decide)]; exact rfl⟩,
      ⟨_, by rw [Function.comp_apply, mget_mset_ne _ _ _ _ (by decide),
            mget_mset_ne _ _ _ _ (by decide)]; exact rfl⟩,
      ⟨_, by rw [Function.comp_apply, mget_mset_ne _ _ _ _ (by decide),
            mget_mset_ne _ _ _ _ (by decide)]; exact rfl⟩⟩
  · simp [hmark] at hm

/-- C2 (amended): every member dict built by any of the three vendor
extractors binds `id`, `sn` and `model` to actual strings (a real value
or the `"N/A"` sentinel).  The remaining declared fields are bound only
by the paths that set them (`role` and `mac_address` are absent from
some paths), and on Huawei/H3C cluster rows `cpu`/`memory` may be bound
to Python `None`; rendering later substitutes `"N/A"` for missing keys
via get-with-default. -/
theorem C2_member_fields (content : String) (m : Member)
    (hsrc :
      (∃ ms, rget (parse_cisco content) "members" = some (Val.ms ms) ∧ m ∈ ms) ∨
      (∃ ms, rget (parse_huawei content) "members" = some (Val.ms ms) ∧ m ∈ ms) ∨
      (∃ ms, rget (parse_h3c content) "members" = some (Val.ms ms) ∧ m ∈ ms)) :
    (∃ s, mget m "id" = some (some s)) ∧ (∃ s, mget m "sn" = some (some s)) ∧
      (∃ s, mget m "model" = some (some s)) := by
  rcases hsrc with ⟨ms, hms, hm⟩ | ⟨ms, hms, hm⟩ | ⟨ms, hms, hm⟩
  · rw [parse_cisco_members] at hms
    cases Val.ms.inj (Option.some.inj hms)
    by_cases h : (ciscoClusterMembers content).isEmpty
    · simp only [h, if_true, List.mem_singleton] at hm
      subst hm
      exact ⟨⟨"1", rfl⟩, ⟨_, rfl⟩, ⟨_, rfl⟩⟩
    · simp only [h, if_false, Bool.false_eq_true] at hm
      exact cisco_cluster_member_fields content m hm
  · rw [parse_huawei_members] at hms
    cases Val.ms.inj (Option.some.inj hms)
    by_cases h : (huaweiClusterMembers content).isEmpty
    · simp only [h, if_true, List.mem_singleton] at hm
      subst hm
      exact ⟨⟨"1", rfl⟩, ⟨_, rfl⟩, ⟨_, rfl⟩⟩
    · simp only [h, if_false, Bool.false_eq_true] at hm
      exact huawei_cluster_member_fields content m hm
  · rw [parse_h3c_members] at hms
    cases Val.ms.inj (Option.some.inj hms)
    by_cases h : (h3cClusterMembers content).isEmpty
    · simp only [h, if_true, List.mem_singleton] at hm
      subst hm
      exact ⟨⟨"1", rfl⟩, ⟨_, rfl⟩, ⟨_, rfl⟩⟩
    · simp only [h, if_false, Bool.false_eq_true] at hm
      exact h3c_cluster_member_fields content m hm

/-- The single member `parse_cisco ""` produces (the standalone path on
an empty capture). -/
def c2CiscoMember : Member :=
  [("id", some "1"), ("status", some "Ready"), ("cpu", some "N/A"),
   ("memory", some "N/A"), ("sn", some "N/A"), ("model", some "N/A")]

/-- The single member the Huawei cluster path produces on a capture with
one row and no per-slot usage figures. -/
def c2HuaweiMember : Member :=
  [("id", some "1"), ("role", some "Standby"), ("model", some "MODEL-A"),
   ("sn", some "AB12"), ("cpu", Option.none), ("memory", Option.none)]

/-- C2 (counterexample): the member record of `parse_cisco ""` has no
`role` and no `mac_address` key at all, and on a Huawei capture whose
`display device` block carries no per-slot usage lines the member's
`cpu` key is bound to Python `None` — so member fields are neither
always present nor always non-`None`. -/
theorem C2_counterexample :
    rget (parse_cisco "") "members" = some (Val.ms [c2CiscoMember]) ∧
    mget c2CiscoMember "role" = Option.none ∧
    mget c2CiscoMember "mac_address" = Option.none ∧
    rget (parse_huawei "display device\n1 Standby pass MODEL-A AB12\n") "members" =
      some (Val.ms [c2HuaweiMember]) ∧
    mget c2HuaweiMember "cpu" = some Option.none := by
  refine ⟨by decide, by decide, by decide, by decide, by decide⟩

/-- C2 (witness): `C2_member_fields` applied to the standalone member of
`parse_cisco ""`. -/
theorem C2_witness :
    (∃ s, mget (ciscoStandaloneMember "" (ciscoBase "")) "id" = some (some s)) ∧
    (∃ s, mget (ciscoStandaloneMember "" (ciscoBase "")) "sn" = some (some s)) ∧
    (∃ s, mget (ciscoStandaloneMember "" (ciscoBase "")) "model" = some (some s)) :=
  C2_member_fields "" (ciscoStandaloneMember "" (ciscoBase ""))
    (Or.inl ⟨[ciscoStandaloneMember "" (ciscoBase "")], by decide, by decide⟩)

/-- C3 (amended): `parse_device_info` tests fingerprints in the fixed
order Cisco, Huawei, H3C, first match winning — but the Cisco
fingerprint is the `Cisco IOS` banner or a `#show` *immediately preceded
by a whitespace character*, not a command echoed after a hostname `#`
prompt: a capture matching that fingerprint is handed to `parse_cisco`
regardless of any Huawei/H3C fingerprints in the same text; Huawei only
when Cisco failed; H3C only when both failed; and with no fingerprint at
all the generic Unknown record is produced.  The vendor-tag conjuncts
make routing observable in the returned record, and the two closing
conjuncts pin the whitespace requirement down: ` #show` fires the Cisco
fingerprint, a prompt echo `SW1#show` does not. -/
theorem C3_detection_order (ip content : String) :
    (reTest content fpCisco = true →
      parse_device_info ip content =
        rUpdate [("_filename", Val.s ip)] (parse_cisco content)) ∧
    (reTest content fpCisco = false → reTest content fpHuawei = true →
      parse_device_info ip content =
        rUpdate [("_filename", Val.s ip)] (parse_huawei content)) ∧
    (reTest content fpCisco = false → reTest content fpHuawei = false →
      reTest content fpH3C = true →
      parse_device_info ip content =
        rUpdate [("_filename", Val.s ip)] (parse_h3c content)) ∧
    (reTest content fpCisco = false → reTest content fpHuawei = false →
      reTest content fpH3C = false →
      parse_device_info ip content =
        rUpdate [("_filename", Val.s ip)] (genericRecord content)) ∧
    rget (parse_cisco content) "vendor" = some (Val.s "Cisco") ∧
    rget (parse_huawei content) "vendor" = some (Val.s "Huawei") ∧
    rget (parse_h3c content) "vendor" = some (Val.s "H3C") ∧
    reTest "sw1 #show running-config" fpCisco = true ∧
    reTest "SW1#show version" fpCisco = false := by
  refine ⟨?_, ?_, ?_, ?_, parse_cisco_vendor content, parse_huawei_vendor content,
    parse_h3c_vendor content, by decide, by decide⟩
  · intro h1
    simp [parse_device_info, h1]
  · intro h1 h2
    simp [parse_device_info, h1, h2]
  · intro h1 h2 h3
    simp [parse_device_info, h1, h2, h3]
  · intro h1 h2 h3
    simp [parse_device_info, h1, h2, h3]

/-- C3 (counterexample): `"SW1#show version\ndisplay device\n"` contains
a command echoed after a `#` prompt (the `parse_cisco` prompt pattern
itself matches `SW1`, and the text contains `#show`), yet the Cisco
fingerprint fails — whitespace is required immediately before `#show` —
and the capture is routed to the *Huawei* extractor; likewise the spec's
own hostname capture `"hostname CoreSW1\nCoreSW1#show version\n"`
matches no fingerprint at all and lands in the generic extractor. -/
theorem C3_counterexample :
    search1 "SW1#show version\ndisplay device\n" pcPrompt = some "SW1" ∧
    pyContains "SW1#show version\ndisplay device\n" "#show" = true ∧
    reTest "SW1#show version\ndisplay device\n" fpCisco = false ∧
    rget (parse_device_info "1.2.3.4" "SW1#show version\ndisplay device\n")
      "vendor" = some (Val.s "Huawei") ∧
    rget (parse_device_info "1.2.3.4" "hostname CoreSW1\nCoreSW1#show version\n")
      "vendor" = some (Val.s "Unknown") := by
  refine ⟨by decide, by decide, by decide, by decide, by decide⟩

/-- C3 (witness): a capture carrying both the Cisco banner and the
Huawei `display device` fingerprint routes to Cisco, and a
fingerprint-free capture routes to the generic record. -/
theorem C3_witness :
    parse_device_info "1.1.1.1" "Cisco IOS Software\ndisplay device\n" =
      rUpdate [("_filename", Val.s "1.1.1.1")]
        (parse_cisco "Cisco IOS Software\ndisplay device\n") ∧
    parse_device_info "1.1.1.1" "hello\n" =
      rUpdate [("_filename", Val.s "1.1.1.1")] (genericRecord "hello\n") :=
  ⟨(C3_detection_order "1.1.1.1" "Cisco IOS Software\ndisplay device\n").1 (by decide),
   (C3_detection_order "1.1.1.1" "hello\n").2.2.2.1 (by decide) (by decide) (by decide)⟩

/-- When the prompt pattern matched with a non-empty stripped group, it
decides the hostname. -/
theorem hostnameChain_prompt (content : String) (pre cfg : RE) (h : String)
    (hp : search1 content pre = some h) (hne : pyStrip h ≠ "") :
    hostnameChain content pre cfg = pyStrip h := by
  unfold hostnameChain
  rw [hp]
  have hne2 : (pyStrip h).isEmpty = false := by
    cases he : (pyStrip h).isEmpty
    · rfl
    · exact absurd ((String.isEmpty_iff _).mp he) hne
  simp [pyTruthy, orNA, hne2]

/-- When the prompt pattern did not match, the configuration-line
pattern decides the hostname. -/
theorem hostnameChain_config (content : String) (pre cfg : RE) (c : String)
    (hp : search1 content pre = Option.none) (hc : search1 content cfg = some c)
    (hne : pyStrip c ≠ "") :
    hostnameChain content pre cfg = pyStrip c := by
  unfold hostnameChain
  rw [hp, hc]
  have hne2 : (pyStrip c).isEmpty = false := by
    cases he : (pyStrip c).isEmpty
    · rfl
    · exact absurd ((String.isEmpty_iff _).mp he) hne
  simp [pyTruthy, orNA, hne2]

/-- When neither pattern matched, the hostname is the sentinel. -/
theorem hostnameChain_none (content : String) (pre cfg : RE)
    (hp : search1 content pre = Option.none)
    (hc : search1 content cfg = Option.none) :
    hostnameChain content pre cfg = "N/A" := by
  unfold hostnameChain
  rw [hp, hc]
  simp [pyTruthy, orNA]

/-- C4: in `parse_cisco` (prompt token before `#`) and in
`parse_huawei`/`parse_h3c` (token inside angle brackets), the
prompt-derived hostname is tried
first and wins whenever it matches with a non-empty stripped group; the
line-anchored `hostname`/`sysname` declaration is consulted only when
the prompt yielded nothing; with both failing the hostname is `"N/A"`;
and on the capture holding both `hostname CoreSW1` and
`CoreSW1#show version` the prompt-derived name wins. -/
theorem C4_hostname_priority (content : String) (h c : String) :
    (search1 content pcPrompt = some h → pyStrip h ≠ "" →
      rget (parse_cisco content) "hostname" = some (Val.s (pyStrip h))) ∧
    (search1 content pcPrompt = Option.none → search1 content pcHostname = some c →
      pyStrip c ≠ "" →
      rget (parse_cisco content) "hostname" = some (Val.s (pyStrip c))) ∧
    (search1 content pcPrompt = Option.none →
      search1 content pcHostname = Option.none →
      rget (parse_cisco content) "hostname" = some (Val.s "N/A")) ∧
    (search1 content phPrompt = some h → pyStrip h ≠ "" →
      rget (parse_huawei content) "hostname" = some (Val.s (pyStrip h))) ∧
    (search1 content phPrompt = Option.none → search1 content phHostname = some c →
      pyStrip c ≠ "" →
      rget (parse_huawei content) "hostname" = some (Val.s (pyStrip c))) ∧
    (search1 content phPrompt = Option.none →
      search1 content phHostname = Option.none →
      rget (parse_huawei content) "hostname" = some (Val.s "N/A")) ∧
    (search1 content phPrompt = some h → pyStrip h ≠ "" →
      rget (parse_h3c content) "hostname" = some (Val.s (pyStrip h))) ∧
    (search1 content phPrompt = Option.none → search1 content phHostname = some c →
      pyStrip c ≠ "" →
      rget (parse_h3c content) "hostname" = some (Val.s (pyStrip c))) ∧
    (search1 content phPrompt = Option.none →
      search1 content phHostname = Option.none →
      rget (parse_h3c content) "hostname" = some (Val.s "N/A")) ∧
    rget (parse_cisco "hostname CoreSW1\nCoreSW1#show version\n") "hostname" =
      some (Val.s "CoreSW1") := by
  refine ⟨?_, ?_, ?_, ?_, ?_, ?_, ?_, ?_, ?_, by decide⟩
  · intro hp hne
    rw [parse_cisco_hostname, hostnameChain_prompt content _ _ h hp hne]
  · intro hp hc hne
    rw [parse_cisco_hostname, hostnameChain_config content _ _ c hp hc hne]
  · intro hp hc
    rw [parse_cisco_hostname, hostnameChain_none content _ _ hp hc]
  · intro hp hne
    rw [parse_huawei_hostname, hostnameChain_prompt content _ _ h hp hne]
  · intro hp hc hne
    rw [parse_huawei_hostname, hostnameChain_config content _ _ c hp hc hne]
  · intro hp hc
    rw [parse_huawei_hostname, hostnameChain_none content _ _ hp hc]
  · intro hp hne
    rw [parse_h3c_hostname, hostnameChain_prompt content _ _ h hp hne]
  · intro hp hc hne
    rw [parse_h3c_hostname, hostnameChain_config content _ _ c hp hc hne]
  · intro hp hc
    rw [parse_h3c_hostname, hostnameChain_none content _ _ hp hc]

/-- C4 (witness): instances of every conditional conjunct — a prompt
capture, a config-only capture, and an empty capture. -/
theorem C4_witness :
    rget (parse_cisco "SW1#show ver\n") "hostname" = some (Val.s "SW1") ∧
    rget (parse_cisco "hostname EdgeSW\n") "hostname" = some (Val.s "EdgeSW") ∧
    rget (parse_cisco "") "hostname" = some (Val.s "N/A") ∧
    rget (parse_huawei "<HW9> display version\n") "hostname" = some (Val.s "HW9") ∧
    rget (parse_h3c "<H3C9>dis cur\n") "hostname" = some (Val.s "H3C9") :=
  ⟨by
    have := (C4_hostname_priority "SW1#show ver\n" "SW1" "").1 (by decide) (by decide)
    simpa using this,
   by
    have := (C4_hostname_priority "hostname EdgeSW\n" "" "EdgeSW").2.1
      (by decide) (by decide) (by decide)
    simpa using this,
   by
    have := (C4_hostname_priority "" "" "").2.2.1 (by decide) (by decide)
    simpa using this,
   by
    have := (C4_hostname_priority "<HW9> display version\n" "HW9" "").2.2.2.1
      (by decide) (by decide)
    simpa using this,
   by
    have := (C4_hostname_priority "<H3C9>dis cur\n" "H3C9" "").2.2.2.2.2.2.1
      (by decide) (by decide)
    simpa using this⟩

/-- The Cisco cluster path yields no members when the marker is absent
or its row pattern matched nothing. -/
theorem ciscoClusterMembers_nil (content : String)
    (h : pyContains content "show switch" = false ∨
      reFindIter content.data pcRow = []) :
    ciscoClusterMembers content = [] := by
  unfold ciscoClusterMembers
  rcases h with h | h
  · simp [h]
  · by_cases hm : pyContains content "show switch" <;> simp [hm, h]

/-- The Huawei cluster path yields no members when the marker is absent
or its row pattern matched nothing. -/
theorem huaweiClusterMembers_nil (content : String)
    (h : pyContains content "display device" = false ∨
      reFindIter content.data phRow = []) :
    huaweiClusterMembers content = [] := by
  unfold huaweiClusterMembers
  rcases h with h | h
  · simp [h]
  · by_cases hm : pyContains content "display device" <;> simp [hm, h]

/-- The H3C cluster path yields no members when both markers are absent
or its row pattern matched nothing. -/
theorem h3cClusterMembers_nil (content : String)
    (h : (pyContains content "display irf" = false ∧
        pyContains content "display device" = false) ∨
      reFindIter content.data p3Row = []) :
    h3cClusterMembers content = [] := by
  unfold h3cClusterMembers
  rcases h with ⟨h1, h2⟩ | h
  · simp [h1, h2]
  · by_cases hm : pyContains content "display irf" || pyContains content "display device" <;>
      simp [hm, h]

/-- The stored `is_stack` flag agrees with `1 <` the length of the
stored member list, in both branches. -/
theorem stack_iff (cm : List Member) (m : Member) :
    (if cm.isEmpty then false else decide (1 < cm.length)) = true ↔
      1 < (if cm.isEmpty then [m] else cm).length := by
  cases cm <;> simp

/-- C5: in every vendor extractor, `is_stack` is true exactly when the
returned member list has more than one entry; and whenever the marker
command is absent or its row pattern matches no line, the extractor
falls through to the standalone single-member path with
`is_stack = false`. -/
theorem C5_cluster_gating (content : String) :
    (∃ ms b, rget (parse_cisco content) "members" = some (Val.ms ms) ∧
      rget (parse_cisco content) "is_stack" = some (Val.b b) ∧
      (b = true ↔ 1 < ms.length)) ∧
    (∃ ms b, rget (parse_huawei content) "members" = some (Val.ms ms) ∧
      rget (parse_huawei content) "is_stack" = some (Val.b b) ∧
      (b = true ↔ 1 < ms.length)) ∧
    (∃ ms b, rget (parse_h3c content) "members" = some (Val.ms ms) ∧
      rget (parse_h3c content) "is_stack" = some (Val.b b) ∧
      (b = true ↔ 1 < ms.length)) ∧
    (pyContains content "show switch" = false ∨ reFindIter content.data pcRow = [] →
      rget (parse_cisco content) "members" =
        some (Val.ms [ciscoStandaloneMember content (ciscoBase content)]) ∧
      rget (parse_cisco content) "is_stack" = some (Val.b false)) ∧
    (pyContains content "display device" = false ∨ reFindIter content.data phRow = [] →
      rget (parse_huawei content) "members" =
        some (Val.ms [huaweiStandaloneMember content]) ∧
      rget (parse_huawei content) "is_stack" = some (Val.b false)) ∧
    ((pyContains content "display irf" = false ∧
        pyContains content "display device" = false) ∨
      reFindIter content.data p3Row = [] →
      rget (parse_h3c content) "members" = some (Val.ms [h3cStandaloneMember content]) ∧
      rget (parse_h3c content) "is_stack" = some (Val.b false)) := by
  refine ⟨⟨_, _, parse_cisco_members content, parse_cisco_is_stack content,
      stack_iff _ _⟩,
    ⟨_, _, parse_huawei_members content, parse_huawei_is_stack content,
      stack_iff _ _⟩,
    ⟨_, _, parse_h3c_members content, parse_h3c_is_stack content,
      stack_iff _ _⟩, ?_, ?_, ?_⟩
  · intro h
    have hnil := ciscoClusterMembers_nil content h
    rw [parse_cisco_members, parse_cisco_is_stack, hnil]
    exact ⟨rfl, rfl⟩
  · intro h
    have hnil := huaweiClusterMembers_nil content h
    rw [parse_huawei_members, parse_huawei_is_stack, hnil]
    exact ⟨rfl, rfl⟩
  · intro h
    have hnil := h3cClusterMembers_nil content h
    rw [parse_h3c_members, parse_h3c_is_stack, hnil]
    exact ⟨rfl, rfl⟩

/-- A Cisco stack capture: marker command, two member rows, and the
per-slot serial-number block. -/
def ciscoStackCap : String :=
  "show switch\n1 Master WS-C3850 aabb.ccdd.eeff Ready\n2 Member WS-C3850 aabb.ccdd.ee00 Ready\nSwitch 1 SERIAL NUMBER : FOC111\nSwitch 2 SERIAL NUMBER : FOC222\n"

/-- C5 (witness): a Cisco capture containing `show switch` but no
parseable member row takes the standalone path with `is_stack = false`,
and a two-row stack capture with correlated serial numbers yields two
members and `is_stack = true`. -/
theorem C5_witness :
    (rget (parse_cisco "sw#show switch\nno rows here\n") "members" =
      some (Val.ms [ciscoStandaloneMember "sw#show switch\nno rows here\n"
        (ciscoBase "sw#show switch\nno rows here\n")]) ∧
     rget (parse_cisco "sw#show switch\nno rows here\n") "is_stack" =
      some (Val.b false)) ∧
    rget (parse_cisco ciscoStackCap) "is_stack" = some (Val.b true) ∧
    rget (parse_cisco ciscoStackCap) "members" = some (Val.ms
      [[("id", some "1"), ("model", some "WS-C3850"),
        ("mac_address", some "aabb.ccdd.eeff"), ("status", some "Ready"),
        ("sn", some "FOC111")],
       [("id", some "2"), ("model", some "WS-C3850"),
        ("mac_address", some "aabb.ccdd.ee00"), ("status", some "Ready"),
        ("sn", some "FOC222")]]) :=
  ⟨(C5_cluster_gating "sw#show switch\nno rows here\n").2.2.2.1
      (Or.inr (by decide)),
   by decide, by decide⟩

/-- C6: when both memory-pool figures match, Cisco memory utilization is
`used/total*100` printed with exactly two decimals and a percent sign;
a zero total yields the string `"0%"` with no division fault; a missing
figure yields `"N/A"`; and 250000 of 1000000 prints as `25.00`. -/
theorem C6_memory_derivation (content : String) (t u : Nat) :
    (ciscoMemTotal? content = some t → ciscoMemUsed? content = some u → 0 < t →
      rget (parse_cisco content) "memory_utilization" =
        some (Val.s (fmt2 u t ++ "%"))) ∧
    (ciscoMemTotal? content = some 0 → ciscoMemUsed? content = some u →
      rget (parse_cisco content) "memory_utilization" = some (Val.s "0%")) ∧
    (ciscoMemTotal? content = Option.none ∨ ciscoMemUsed? content = Option.none →
      rget (parse_cisco content) "memory_utilization" = some (Val.s "N/A")) ∧
    fmt2 250000 1000000 = "25.00" := by
  refine ⟨?_, ?_, ?_, by decide⟩
  · intro ht hu hpos
    rw [parse_cisco_memutil]
    unfold ciscoMemUtil
    rw [ht, hu]
    simp [hpos]
  · intro ht hu
    rw [parse_cisco_memutil]
    unfold ciscoMemUtil
    rw [ht, hu]
    simp
  · intro h
    rw [parse_cisco_memutil]
    unfold ciscoMemUtil
    rcases h with h | h
    · rw [h]
    · cases ht : ciscoMemTotal? content <;> rw [h]

/-- C6 (witness): the three branches at concrete captures — the claim's
own figures, a zero total, and an empty capture. -/
theorem C6_witness :
    rget (parse_cisco "Processor Pool Total: 1000000\nUsed: 250000\n")
      "memory_utilization" = some (Val.s "25.00%") ∧
    rget (parse_cisco "Processor Pool Total: 0\nUsed: 5\n")
      "memory_utilization" = some (Val.s "0%") ∧
    rget (parse_cisco "") "memory_utilization" = some (Val.s "N/A") :=
  ⟨by
    have := (C6_memory_derivation "Processor Pool Total: 1000000\nUsed: 250000\n"
      1000000 250000).1 (by decide) (by decide) (by decide)
    simpa using this,
   (C6_memory_derivation "Processor Pool Total: 0\nUsed: 5\n" 0 5).2.1
      (by decide) (by decide),
   (C6_memory_derivation "" 0 0).2.2.1 (Or.inl (by decide))⟩

/-- A Huawei stack capture whose second member is the master and whose
per-slot usage lines cover only slot 2. -/
def hwMasterCap : String :=
  "<HW1> display device\n1 Standby pass MODEL-A AB12\n2 Master pass MODEL-B CD34\nCPU Usage for Slot 2 is 15%\nMemory usage of slot 2: 40%\n"

/-- C7 (code bug): on `hwMasterCap` the master member carries
`cpu = "15%"` and `memory = "40%"`, and its serial number and model are
promoted to the top level — but the promoted `cpu_utilization` and
`memory_utilization` are Python `None`, because the promotion loop looks
up the member dict with the record-level key names
(`cpu_utilization`/`memory_utilization`) instead of the member-level
keys (`cpu`/`memory`).  The spec (and the previous script generation,
which promotes `member.get('cpu', 'N/A')`) promote the member's values. -/
theorem C7_promotion_bug :
    rget (parse_huawei hwMasterCap) "sn" = some (Val.s "CD34") ∧
    rget (parse_huawei hwMasterCap) "model" = some (Val.s "MODEL-B") ∧
    rget (parse_huawei hwMasterCap) "cpu_utilization" = some Val.nul ∧
    rget (parse_huawei hwMasterCap) "memory_utilization" = some Val.nul ∧
    (∃ ms, rget (parse_huawei hwMasterCap) "members" = some (Val.ms ms) ∧
      ∃ m, m ∈ ms ∧ mgetD m "role" "" = "Master" ∧
        mget m "cpu" = some (some "15%") ∧ mget m "memory" = some (some "40%")) := by
  refine ⟨by decide, by decide, by decide, by decide,
    ⟨[[("id", some "1"), ("role", some "Standby"), ("model", some "MODEL-A"),
       ("sn", some "AB12"), ("cpu", Option.none), ("memory", Option.none)],
      [("id", some "2"), ("role", some "Master"), ("model", some "MODEL-B"),
       ("sn", some "CD34"), ("cpu", some "15%"), ("memory", some "40%")]],
     by decide,
     [("id", some "2"), ("role", some "Master"), ("model", some "MODEL-B"),
      ("sn", some "CD34"), ("cpu", some "15%"), ("memory", some "40%")],
     by decide, by decide, by decide, by decide⟩⟩

/-- A successfully parsed octet is at most 255. -/
theorem octet_le (p : String) (x : Nat) (h : octet? p = some x) : x ≤ 255 := by
  unfold octet? at h
  split_ifs at h
  all_goals first
    | exact Option.noConfusion h
    | (cases Option.some.inj h; omega)

/-- A successfully parsed dotted quad is at most 255.255.255.255. -/
theorem parseIPv4_le (s : String) (v : Nat) (h : parseIPv4? s = some v) :
    v ≤ 4294967295 := by
  unfold parseIPv4? at h
  split at h
  next a b c d _ =>
    split at h
    next x y z w hx hy hz hw =>
      cases Option.some.inj h
      have ha := octet_le _ _ hx
      have hb := octet_le _ _ hy
      have hc := octet_le _ _ hz
      have hd := octet_le _ _ hw
      omega
    next => exact Option.noConfusion h
  next _ _ => exact Option.noConfusion h

/-- C8 (amended): files are stably sorted by the numeric value of the
leading dotted-quad of the filename; a name with no parseable in-range
address is keyed with the sentinel `255.255.255.255` (the maximum key),
so it sorts after every file with a smaller parsed address but ties with
files whose address is literally `255.255.255.255`; on the claim's own
files the output is `2.2.2.2, 10.0.0.1, 10.0.0.5, notes.txt`. -/
theorem C8_ordering :
    sort_by_ip ["10.0.0.5.txt", "10.0.0.1.txt", "2.2.2.2.txt", "notes.txt"] =
      ["2.2.2.2.txt", "10.0.0.1.txt", "10.0.0.5.txt", "notes.txt"] ∧
    (∀ name, reMatch0 name fnRe = Option.none → ip_key name = 4294967295) ∧
    (∀ name, ip_key name ≤ 4294967295) ∧
    (∀ files, List.Sorted (fun a b => ip_key a ≤ ip_key b) (sort_by_ip files)) ∧
    (∀ files, (sort_by_ip files).Perm files) := by
  refine ⟨by decide, ?_, ?_, ?_, ?_⟩
  · intro name h
    unfold ip_key
    rw [h]
    rfl
  · intro name
    unfold ip_key
    show (match parseIPv4? (match reMatch0 name fnRe with
        | some g => grpS name.data g 1
        | Option.none => "255.255.255.255") with
      | some v => v
      | Option.none => 4294967295) ≤ 4294967295
    cases hm : reMatch0 name fnRe with
    | none => exact Nat.le.refl
    | some g =>
      show (match parseIPv4? (grpS name.data g 1) with
        | some v => v
        | Option.none => 4294967295) ≤ 4294967295
      cases hp : parseIPv4? (grpS name.data g 1) with
      | none => exact Nat.le.refl
      | some v => exact parseIPv4_le _ v hp
  · intro files
    haveI : IsTotal String (fun a b => ip_key a ≤ ip_key b) :=
      ⟨fun a b => Nat.le_total _ _⟩
    haveI : IsTrans String (fun a b => ip_key a ≤ ip_key b) :=
      ⟨fun a b c => Nat.le_trans⟩
    exact List.sorted_insertionSort _ files
  · intro files
    exact List.perm_insertionSort _ files

/-- C8 (counterexample): with the stable sort, the unparseable
`notes.txt` ties with the genuinely parseable `255.255.255.255.txt` and
stays in front of it, so the unparseable names do not sort to the end as
a group. -/
theorem C8_counterexample :
    sort_by_ip ["notes.txt", "255.255.255.255.txt"] =
      ["notes.txt", "255.255.255.255.txt"] ∧
    reMatch0 "notes.txt" fnRe = Option.none ∧
    (reMatch0 "255.255.255.255.txt" fnRe).isSome = true ∧
    ip_key "255.255.255.255.txt" = 4294967295 := by
  refine ⟨by decide, by decide, by decide, by decide⟩

/-- C8 (witness): the sentinel-key conjunct of `C8_ordering` applied to
`notes.txt`. -/
theorem C8_witness : ip_key "notes.txt" = 4294967295 :=
  C8_ordering.2.1 "notes.txt" (by decide)

/-- C9 (amended): when no vendor fingerprint matches, the run routes to
the generic extractor (no error): the record is the initial
`vendor = Unknown`, `is_stack = false`, one-empty-member record updated
with one key per `label : value` line (label lower-cased, spaces to
underscores, value stripped).  The initial `vendor`, `is_stack` and
`members` entries survive provided no scanned label normalizes to those
key names, and a capture with the line `Uptime : 5 days` binds the key
`uptime` to `"5 days"`. -/
theorem C9_generic_fallback (ip content : String) :
    (reTest content fpCisco = false → reTest content fpHuawei = false →
      reTest content fpH3C = false →
      parse_device_info ip content =
        rUpdate [("_filename", Val.s ip)] (genericRecord content)) ∧
    (¬ "vendor" ∈ genericKeys content →
      rget (genericRecord content) "vendor" = some (Val.s "Unknown")) ∧
    (¬ "is_stack" ∈ genericKeys content →
      rget (genericRecord content) "is_stack" = some (Val.b false)) ∧
    (¬ "members" ∈ genericKeys content →
      rget (genericRecord content) "members" = some (Val.ms [[]])) ∧
    rget (genericRecord "Uptime : 5 days\n") "uptime" = some (Val.s "5 days") := by
  refine ⟨?_, ?_, ?_, ?_, by decide⟩
  · intro h1 h2 h3
    simp [parse_device_info, h1, h2, h3]
  · intro h
    rw [genericRecord_notin content "vendor" h]
    decide
  · intro h
    rw [genericRecord_notin content "is_stack" h]
    decide
  · intro h
    rw [genericRecord_notin content "members" h]
    decide

/-- C9 (counterexample): the fingerprint-free capture `"Vendor : Foo\n"`
routes to the generic extractor, whose key scan then overwrites the
`vendor` entry: the returned vendor is `"Foo"`, not `"Unknown"`. -/
theorem C9_counterexample :
    reTest "Vendor : Foo\n" fpCisco = false ∧
    reTest "Vendor : Foo\n" fpHuawei = false ∧
    reTest "Vendor : Foo\n" fpH3C = false ∧
    rget (parse_device_info "1.2.3.4" "Vendor : Foo\n") "vendor" =
      some (Val.s "Foo") := by
  refine ⟨by decide, by decide, by decide, by decide⟩

/-- C9 (witness): `C9_generic_fallback` applied to the claim's own
capture, which carries no fingerprint and no colliding label. -/
theorem C9_witness :
    parse_device_info "2.2.2.2" "Uptime : 5 days\n" =
      rUpdate [("_filename", Val.s "2.2.2.2")] (genericRecord "Uptime : 5 days\n") ∧
    rget (genericRecord "Uptime : 5 days\n") "vendor" = some (Val.s "Unknown") :=
  ⟨(C9_generic_fallback "2.2.2.2" "Uptime : 5 days\n").1
      (by decide) (by decide) (by decide),
   (C9_generic_fallback "2.2.2.2" "Uptime : 5 days\n").2.1 (by decide)⟩

/-- C10: `parse_cisco` performs no primary-member promotion: whenever
its returned member list has more than one entry (which only the cluster
path can produce), the top-level `sn` and `model` keys are absent from
the record — they are written only by the standalone path. -/
theorem C10_no_cisco_promotion (content : String) (ms : List Member)
    (hms : rget (parse_cisco content) "members" = some (Val.ms ms))
    (hlen : 1 < ms.length) :
    rget (parse_cisco content) "sn" = Option.none ∧
    rget (parse_cisco content) "model" = Option.none := by
  cases he : (ciscoClusterMembers content).isEmpty
  · exact ⟨parse_cisco_sn_cluster content he, parse_cisco_model_cluster content he⟩
  · rw [parse_cisco_members] at hms
    simp only [he, if_true] at hms
    cases Val.ms.inj (Option.some.inj hms)
    simp at hlen

/-- C10 (witness): on the two-member stack capture the top-level `sn`
and `model` keys are absent. -/
theorem C10_witness :
    rget (parse_cisco ciscoStackCap) "sn" = Option.none ∧
    rget (parse_cisco ciscoStackCap) "model" = Option.none :=
  C10_no_cisco_promotion ciscoStackCap
    [[("id", some "1"), ("model", some "WS-C3850"),
      ("mac_address", some "aabb.ccdd.eeff"), ("status", some "Ready"),
      ("sn", some "FOC111")],
     [("id", some "2"), ("model", some "WS-C3850"),
      ("mac_address", some "aabb.ccdd.ee00"), ("status", some "Ready"),
      ("sn", some "FOC222")]] (by decide) (by decide)

end TxtDocx
